import Mathlib

/-!
Shallow embedding of the feed-aggregation web layer in `app.py` of the
Redata-py repository, together with proofs settling the frozen claims.

Conventions of the embedding:
* Python strings are Lean `String`; `None` becomes `Option.none`.
* Raw feed entries (duck-typed `feedparser` dictionaries) become the
  structure `FeedEntry`; a missing key is `none` (or `[]` for list keys).
* `time.struct_time` values compare chronologically, so they are embedded
  as `Int` seconds relative to the Unix epoch; `time.gmtime(0)` is `0`.
* Wall-clock time (`time.time()`) is a `Nat` parameter `now`.
* Network effects (`feedparser.parse`, the chat-completion call) become
  explicit parameters, so that "no fetch happens" is provable as
  independence of the result from that parameter.
* The module-level dict `CACHE` becomes an explicit association list that
  is threaded through `load_articles_from`.
* CPython `list.sort` / `sorted` are stable; a stable sort is determined
  extensionally by sortedness plus stability, so both are embedded with
  `List.insertionSort` (which Mathlib shows is stable) under the
  corresponding comparison.
* Python `str.strip`, `str.lower`, `startswith` and substring tests are
  embedded at the character-list level.
-/

namespace Redata

/-- One element of an entry `media_content` / `media_thumbnail` list:
only its `url` key is ever read (`app.py` line 76). -/
structure MediaItem where
  url : Option String := none
deriving DecidableEq

/-- One element of an entry `links` list (`app.py` lines 78-81). -/
structure EntryLink where
  rel : Option String := none
  type : Option String := none
  href : Option String := none
deriving DecidableEq

/-- A raw feed entry as consumed by `get_image`, `entry_time` and
`normalize_entry` (`app.py` lines 71-101).  Each field models one key
read by the code; a missing key is `none` (or `[]`). -/
structure FeedEntry where
  title : Option String := none
  link : Option String := none
  published : Option String := none
  updated : Option String := none
  summary : Option String := none
  description : Option String := none
  media_content : List MediaItem := []
  media_thumbnail : List MediaItem := []
  links : List EntryLink := []
  published_parsed : Option Int := none
  updated_parsed : Option Int := none
deriving DecidableEq

/-- The result of `feedparser.parse(url)` as read by `load_articles_from`:
the feed title (`parsed.feed.get("title", url)`) and the entry list.
`feedparser.parse` never raises, so an arbitrary value of this type covers
parse failures (empty `entries`). -/
structure ParsedFeed where
  title : Option String := none
  entries : List FeedEntry := []

/-- A normalized article dict as built by `normalize_entry`
(`app.py` lines 92-101). -/
structure Article where
  source : String
  title : String
  link : String
  published : String
  summary : String
  image : Option String
  sort_time : Int
deriving DecidableEq

/-- Python `a or b` for an optional string `a` and default `b`:
`None` and the empty string are falsy. -/
def pyStrOr (a : Option String) (b : String) : String :=
  match a with
  | some s => if s = ("") then b else s
  | none => b

/-- Python truthiness of an optional string: `None` and `""` are falsy. -/
def optTruthy (s : Option String) : Bool :=
  match s with
  | some s => !(s == (""))
  | none => false

/-- Python `str.strip()`: drop whitespace from both ends. -/
def py_strip (s : String) : String :=
  (((s.toList.dropWhile Char.isWhitespace).reverse.dropWhile
      Char.isWhitespace).reverse).asString

/-- Python `str.lower()`: lowercase character by character (the articles
and queries of the claims are ASCII, where `Char.toLower` agrees). -/
def py_lower (s : String) : String :=
  (s.toList.map Char.toLower).asString

/-- Python `needle in haystack` for strings: substring containment. -/
def py_contains (haystack needle : String) : Bool :=
  decide (needle.toList <:+: haystack.toList)

/-- Python `s.startswith(pre)`. -/
def py_startswith (s pre : String) : Bool :=
  pre.toList.isPrefixOf s.toList

/-- `get_image(entry)` (`app.py` lines 71-82): try the first
media-content / media-thumbnail url, then the first enclosure link whose
declared type starts with `image/`. -/
def get_image (entry : FeedEntry) : Option String :=
  let media := if entry.media_content.isEmpty then entry.media_thumbnail
               else entry.media_content
  let img : Option String :=
    match media with
    | [] => none
    | m :: _ => m.url
  if optTruthy img then img
  else
    match entry.links.find? (fun l =>
        (l.rel == some ("enclosure"))
        && py_startswith (l.type.getD ("")) ("image/")) with
    | some l => l.href
    | none => img

/-- `entry_time(entry)` (`app.py` lines 84-90): `published_parsed`, else
`updated_parsed`, else `time.gmtime(0)` (a `struct_time` is always truthy,
so only key absence matters). -/
def entry_time (entry : FeedEntry) : Int :=
  match entry.published_parsed with
  | some t => t
  | none =>
    match entry.updated_parsed with
    | some t => t
    | none => 0

/-- `normalize_entry(source, entry)` (`app.py` lines 92-101). -/
def normalize_entry (source : String) (entry : FeedEntry) : Article :=
  { source := source
    title := py_strip (pyStrOr entry.title (""))
    link := pyStrOr entry.link ("")
    published := pyStrOr entry.published (pyStrOr entry.updated (""))
    summary := pyStrOr entry.summary (pyStrOr entry.description (""))
    image := get_image entry
    sort_time := entry_time entry }

/-- A value of the `CACHE` dict (`app.py` line 104): timestamp and items. -/
structure CacheEntry where
  ts : Nat
  items : List Article
deriving DecidableEq

/-- A `CACHE` key: the feed urls sorted and joined with a bar, paired with
the time bucket (`app.py` line 109). -/
abbrev CacheKey := String × Nat

/-- The `CACHE` dict, as an association list with at most one binding per
key (newest binding first). -/
abbrev Cache := List (CacheKey × CacheEntry)

/-- Dict lookup `CACHE[key]` / `key in CACHE`. -/
def cacheLookup (c : Cache) (k : CacheKey) : Option CacheEntry :=
  (c.find? (fun p => decide (p.1 = k))).map (fun p => p.2)

/-- `TTL_SECONDS` (`app.py` line 105). -/
def TTL_SECONDS : Nat := 300

/-- Python `sorted` on strings: stable ascending sort. -/
def py_sorted (l : List String) : List String :=
  l.insertionSort (fun a b => a ≤ b)

/-- The cache key of a call (`app.py` lines 108-109). -/
def cache_key (feeds : List String) (now : Nat) : CacheKey :=
  (String.intercalate ("|") (py_sorted feeds), now / TTL_SECONDS)

/-- The fetch loop of `load_articles_from` (`app.py` lines 113-120): for
each url parse the feed, normalize each entry with the declared feed title
(falling back to the url), and keep entries with non-empty title and link. -/
def fetch_items (env : String → ParsedFeed) (feeds : List String) :
    List Article :=
  (feeds.map (fun url =>
    let parsed := env url
    let source_name := parsed.title.getD url
    (parsed.entries.map (fun e => normalize_entry source_name e)).filter
      (fun a => (!(a.title == (""))) && (!(a.link == (""))))
  )).flatten

/-- The dedup loop of `load_articles_from` (`app.py` lines 122-129):
keep an article when its link is non-empty and not yet seen. -/
def dedupe_by_link : List Article → List String → List Article
  | [], _ => []
  | a :: rest, seen =>
    if a.link ≠ ("") ∧ a.link ∉ seen then
      a :: dedupe_by_link rest (a.link :: seen)
    else
      dedupe_by_link rest seen

/-- The descending comparison of `deduped.sort(key=..., reverse=True)`
(`app.py` line 131): `a` may precede `b` when `b` is not strictly newer. -/
def sort_time_ge (a b : Article) : Prop :=
  b.sort_time ≤ a.sort_time

instance : DecidableRel sort_time_ge :=
  fun a b => inferInstanceAs (Decidable (b.sort_time ≤ a.sort_time))

instance : IsTotal Article sort_time_ge :=
  ⟨fun a b => le_total b.sort_time a.sort_time⟩

instance : IsTrans Article sort_time_ge :=
  ⟨fun _ _ _ hab hbc => le_trans hbc hab⟩

/-- `load_articles_from(feeds)` (`app.py` lines 107-133), with the fetch
environment, the wall-clock time and the `CACHE` state made explicit.
Returns the article list together with the updated cache. -/
def load_articles_from (env : String → ParsedFeed) (now : Nat)
    (cache : Cache) (feeds : List String) : List Article × Cache :=
  let key := cache_key feeds now
  match cacheLookup cache key with
  | some entry => (entry.items, cache)
  | none =>
    let items := fetch_items env feeds
    let deduped := dedupe_by_link items []
    let out := List.insertionSort sort_time_ge deduped
    (out, (key, { ts := now, items := out }) :: cache)

/-- `paginate(items, page, per_page)` (`app.py` lines 135-141).
`math.ceil(total / per_page)` is the exact ceiling division
`(total + per_page - 1) / per_page` for a positive page size, and
`items[start:end]` with `end = start + per_page` is drop-then-take. -/
def paginate (items : List Article) (page : Int) (per_page : Nat) :
    List Article × Nat × Nat × Nat :=
  let total := items.length
  let total_pages := max 1 ((total + per_page - 1) / per_page)
  let p := (max 1 (min page (total_pages : Int))).toNat
  let start := (p - 1) * per_page
  ((items.drop start).take per_page, p, total_pages, total)

/-- The feed urls of the dashboard tab (`app.py` lines 38-44). -/
def dashboard_feeds : List String :=
  [("http://feeds.bbci.co.uk/news/world/rss.xml"),
   ("http://rss.cnn.com/rss/edition_world.rss"),
   ("https://www.ft.com/rss/home/uk"),
   ("https://www.economist.com/business/rss.xml"),
   ("https://www.cnbc.com/id/100727362/device/rss/rss.html")]

/-- `FEED_GROUPS` (`app.py` lines 37-67), an ordered mapping from tab name
to feed url list. -/
def FEED_GROUPS : List (String × List String) :=
  [(("dashboard"), dashboard_feeds),
   (("climate"),
    [("https://www.ft.com/rss/home/uk"),
     ("https://www.economist.com/business/rss.xml")]),
   (("air"),
    [("https://www.sciencedaily.com/rss/earth_climate/air_quality.xml"),
     ("http://airqualitynews.com/feed")]),
   (("waste"),
    [("https://earth911.com/feed"),
     ("https://recyclinginside.com/rss-feeds/")]),
   (("markets"),
    [("https://www.cnbc.com/id/100727362/device/rss/rss.html"),
     ("http://feeds.nbcnews.com/feeds/topstories")]),
   (("energy"),
    [("https://news.un.org/feed/subscribe/en/news/region/global/feed/rss.xml")]),
   (("policy"),
    [("https://news.un.org/feed/subscribe/en/news/topic/un-affairs/feed/rss.xml")])]

/-- `FEED_GROUPS.get(tab, FEED_GROUPS["dashboard"])` (`app.py` lines 155
and 185). -/
def feed_groups_get (tab : String) : List String :=
  ((FEED_GROUPS.find? (fun p => p.1 == tab)).map (fun p => p.2)).getD
    dashboard_feeds

/-- Whether the lowercased query occurs in the lowercased title or the
lowercased summary of an article (`app.py` lines 162 and 188); `q` is
already lowercased by the callers. -/
def query_matches (q : String) (a : Article) : Bool :=
  py_contains (py_lower a.title) q || py_contains (py_lower a.summary) q

/-- The tab-aware search of `render_feed_page` (`app.py` lines 159-162):
filter only when the trimmed query is non-empty. -/
def tab_query_filter (q_raw : String) (items : List Article) :
    List Article :=
  if q_raw ≠ ("") then items.filter (query_matches (py_lower q_raw))
  else items

/-- The result filter of the `/search` route (`app.py` lines 187-188):
`[a for a in items if ql and (ql in ... or ql in ...)]`; an empty `ql` is
falsy, so then nothing passes the filter. -/
def search_results_filter (query : String) (items : List Article) :
    List Article :=
  let ql := py_lower query
  items.filter (fun a => (!(ql == (""))) && query_matches ql a)

/-- The template context produced by `render_feed_page` and by the
`/search` route, restricted to the claim-relevant fields (the
presentation-only fields `page_title`, `region`, `timeframe` and `dtype`
are pass-throughs and are omitted). -/
structure FeedPageResponse where
  articles : List Article
  page : Nat
  total_pages : Nat
  total_articles : Nat
  current_tab : String
  q : String
deriving DecidableEq

/-- `render_feed_page(tab_key, ...)` (`app.py` lines 152-178) as a function
of the request parameters `page` and `q` (a missing or non-integer `page`
parameter yields the default 1). -/
def render_feed_page (env : String → ParsedFeed) (now : Nat)
    (cache : Cache) (tab_key : String) (page_param : Option Int)
    (q_param : Option String) : FeedPageResponse × Cache :=
  let page := page_param.getD 1
  let per_page : Nat := 10
  let feeds := feed_groups_get tab_key
  let res := load_articles_from env now cache feeds
  let q_raw := py_strip (pyStrOr q_param (""))
  let items := tab_query_filter q_raw res.1
  let pg := paginate items page per_page
  ({ articles := pg.1, page := pg.2.1, total_pages := pg.2.2.1,
     total_articles := pg.2.2.2, current_tab := tab_key, q := q_raw },
   res.2)

/-- The `/search` route (`app.py` lines 181-201).  The request may carry a
`page` parameter (`_page_param`); the handler never reads it and renders
with `page=1, total_pages=1` and the full result list. -/
def search_route (env : String → ParsedFeed) (now : Nat) (cache : Cache)
    (q_param tab_param : Option String) (_page_param : Option Int) :
    FeedPageResponse × Cache :=
  let query := py_strip (pyStrOr q_param (""))
  let tab := tab_param.getD ("dashboard")
  let feeds := feed_groups_get tab
  let res := load_articles_from env now cache feeds
  let results := search_results_filter query res.1
  ({ articles := results, page := 1, total_pages := 1,
     total_articles := results.length, current_tab := tab, q := query },
   res.2)

/-- `markupsafe.escape` of one character: ampersand, angle brackets and
both quote characters (code points 39 and 34) become entities. -/
def escape_char (c : Char) : String :=
  if c = '&' then ("&amp;")
  else if c = '>' then ("&gt;")
  else if c = '<' then ("&lt;")
  else if c.toNat = 39 then ("&#39;")
  else if c.toNat = 34 then ("&#34;")
  else String.singleton c

/-- `markupsafe.escape` on a string, character by character (the chained
str.replace calls of the library are equivalent because replacements are
applied left to right and never rewrite an inserted entity). -/
def markup_escape (s : String) : String :=
  String.join (s.toList.map escape_char)

/-- Python `s.replace(pattern, new)` for the one-character pattern LF, the
only pattern the source uses (`app.py` line 234). -/
def replace_nl (s : String) (new : String) : String :=
  String.join (s.toList.map (fun c =>
    if c = '\n' then new else String.singleton c))

/-- `Markup.replace` from markupsafe: both arguments are escaped before
delegating to `str.replace` (escaping leaves the LF pattern unchanged).
This is the documented behaviour of every markupsafe `Markup` string
method that accepts string arguments. -/
def markup_replace_nl (s : String) (new : String) : String :=
  replace_nl s (markup_escape new)

/-- The outcome of the `/assistant/ask` handler: a redirect back to the
assistant form, or a rendered page with an answer markup string. -/
inductive AskResult where
  | redirect_to_form
  | answer_page (answer : String)
deriving DecidableEq

/-- The fixed notice rendered when no API credential is configured
(`app.py` line 215). -/
def not_configured_answer : String := "<em>GROQ_API_KEY not configured.</em>"

/-- The fixed failure prefix of the exception path (`app.py` line 238). -/
def failed_fetch_answer : String := "<em>Failed to fetch reply.</em><br>"

/-- `assistant_ask` (`app.py` lines 208-239) as a function of the form
field `q`, the configured credential, and the outcome of the remote
chat-completion call: either an exception message or a reply whose
`content` may be missing. -/
def assistant_ask (q_form : Option String) (api_key : Option String)
    (remote : Except String (Option String)) : AskResult :=
  let q := py_strip (pyStrOr q_form (""))
  if q = ("") then AskResult.redirect_to_form
  else if optTruthy api_key = false then
    AskResult.answer_page not_configured_answer
  else
    match remote with
    | Except.ok content =>
      let text := pyStrOr content ("")
      AskResult.answer_page (markup_replace_nl (markup_escape text) ("<br>"))
    | Except.error e =>
      AskResult.answer_page (failed_fetch_answer ++ markup_escape e)

/-- Modelled from the spec: the success-path rendering the specification
describes for the assistant reply, namely the HTML-escaped text with each
newline converted to an HTML line-break tag.  Stated separately from the
code path `markup_replace_nl (markup_escape text) "<br>"` so the two can
be compared. -/
def spec_answer_render (text : String) : String :=
  replace_nl (markup_escape text) ("<br>")

/-! ### Supporting lemmas -/

theorem mem_fetch_items {env : String → ParsedFeed} {feeds : List String}
    {a : Article} (h : a ∈ fetch_items env feeds) :
    a.title ≠ ("") ∧ a.link ≠ ("") := by
  simp only [fetch_items, List.mem_flatten, List.mem_map] at h
  obtain ⟨l, ⟨url, _, rfl⟩, hal⟩ := h
  simp only [List.mem_filter, Bool.and_eq_true, Bool.not_eq_true',
    beq_eq_false_iff_ne, ne_eq] at hal
  exact hal.2

theorem mem_dedupe_by_link {a : Article} :
    ∀ {l : List Article} {seen : List String},
      a ∈ dedupe_by_link l seen → a ∈ l ∧ a.link ≠ ("") ∧ a.link ∉ seen := by
  intro l
  induction l with
  | nil => intro seen h; simp [dedupe_by_link] at h
  | cons b rest ih =>
    intro seen h
    by_cases hb : b.link ≠ ("") ∧ b.link ∉ seen
    · rw [dedupe_by_link, if_pos hb] at h
      rcases List.mem_cons.mp h with rfl | h
      · exact ⟨List.mem_cons_self _ _, hb⟩
      · obtain ⟨h1, h2, h3⟩ := ih h
        refine ⟨List.mem_cons_of_mem _ h1, h2, fun hc => h3 ?_⟩
        exact List.mem_cons_of_mem _ hc
    · rw [dedupe_by_link, if_neg hb] at h
      obtain ⟨h1, h2, h3⟩ := ih h
      exact ⟨List.mem_cons_of_mem _ h1, h2, h3⟩

theorem dedupe_by_link_find {a : Article} :
    ∀ {l : List Article} {seen : List String}, a ∈ dedupe_by_link l seen →
      l.find? (fun b => b.link == a.link) = some a := by
  intro l
  induction l with
  | nil => intro seen h; simp [dedupe_by_link] at h
  | cons b rest ih =>
    intro seen h
    by_cases hb : b.link ≠ ("") ∧ b.link ∉ seen
    · rw [dedupe_by_link, if_pos hb] at h
      rcases List.mem_cons.mp h with rfl | h
      · exact List.find?_cons_of_pos _ (by simp)
      · have hmem := mem_dedupe_by_link h
        have hne : b.link ≠ a.link := by
          intro he
          exact hmem.2.2 (he ▸ List.mem_cons_self _ _)
        rw [List.find?_cons_of_neg _ (by simpa using hne)]
        exact ih h
    · rw [dedupe_by_link, if_neg hb] at h
      have hmem := mem_dedupe_by_link h
      have hne : b.link ≠ a.link := by
        rcases not_and_or.mp hb with hb1 | hb2
        · have hbe : b.link = ("") := not_not.mp hb1
          intro he
          exact hmem.2.1 (he ▸ hbe)
        · have hbin : b.link ∈ seen := not_not.mp hb2
          intro he
          exact hmem.2.2 (he ▸ hbin)
      rw [List.find?_cons_of_neg _ (by simpa using hne)]
      exact ih h

theorem dedupe_by_link_complete {b : Article} :
    ∀ {l : List Article} {seen : List String},
      b ∈ l → b.link ≠ ("") → b.link ∉ seen →
      ∃ a, a ∈ dedupe_by_link l seen ∧ a.link = b.link := by
  intro l
  induction l with
  | nil => intro seen h; simp at h
  | cons c rest ih =>
    intro seen hmem hne hnseen
    rcases List.mem_cons.mp hmem with rfl | hmem
    · rw [dedupe_by_link, if_pos ⟨hne, hnseen⟩]
      exact ⟨b, List.mem_cons_self _ _, rfl⟩
    · by_cases hc : c.link ≠ ("") ∧ c.link ∉ seen
      · rw [dedupe_by_link, if_pos hc]
        by_cases he : c.link = b.link
        · exact ⟨c, List.mem_cons_self _ _, he⟩
        · obtain ⟨a, ha, hal⟩ := ih hmem hne (by
            intro hin
            rcases List.mem_cons.mp hin with h1 | h2
            · exact he h1.symm
            · exact hnseen h2)
          exact ⟨a, List.mem_cons_of_mem _ ha, hal⟩
      · rw [dedupe_by_link, if_neg hc]
        exact ih hmem hne hnseen

theorem dedupe_by_link_nodup :
    ∀ (l : List Article) (seen : List String),
      (dedupe_by_link l seen).Pairwise (fun a b => a.link ≠ b.link) := by
  intro l
  induction l with
  | nil => intro seen; simp [dedupe_by_link]
  | cons b rest ih =>
    intro seen
    by_cases hb : b.link ≠ ("") ∧ b.link ∉ seen
    · rw [dedupe_by_link, if_pos hb]
      refine List.Pairwise.cons ?_ (ih _)
      intro a ha
      have := (mem_dedupe_by_link ha).2.2
      intro he
      exact this (he ▸ List.mem_cons_self _ _)
    · rw [dedupe_by_link, if_neg hb]
      exact ih _

theorem filter_orderedInsert (p : Article → Bool) (a : Article)
    (h : p a = true → ∀ b, ¬ sort_time_ge a b → p b = false) :
    ∀ l : List Article,
      (List.orderedInsert sort_time_ge a l).filter p = (a :: l).filter p := by
  intro l
  induction l with
  | nil => rfl
  | cons b rest ih =>
    by_cases hr : sort_time_ge a b
    · rw [List.orderedInsert, if_pos hr]
    · rw [List.orderedInsert, if_neg hr]
      rcases hpa : p a with _ | _
      · rcases hpb : p b with _ | _
        · simp only [List.filter_cons, hpa, hpb] at ih ⊢
          simpa using ih
        · simp only [List.filter_cons, hpa, hpb] at ih ⊢
          simp only [if_true, if_false] at ih ⊢
          simp [ih]
      · have hpb : p b = false := h hpa b hr
        simp only [List.filter_cons, hpa, hpb] at ih ⊢
        simpa using ih

theorem filter_insertionSort (p : Article → Bool)
    (hp : ∀ a, p a = true → ∀ b, ¬ sort_time_ge a b → p b = false) :
    ∀ l : List Article,
      (List.insertionSort sort_time_ge l).filter p = l.filter p := by
  intro l
  induction l with
  | nil => rfl
  | cons a rest ih =>
    rw [List.insertionSort, filter_orderedInsert p a (hp a)]
    simp only [List.filter_cons, ih]

theorem load_articles_from_hit {env : String → ParsedFeed} {now : Nat}
    {cache : Cache} {feeds : List String} {e : CacheEntry}
    (h : cacheLookup cache (cache_key feeds now) = some e) :
    load_articles_from env now cache feeds = (e.items, cache) := by
  rw [load_articles_from]
  rw [h]

theorem load_articles_from_miss {env : String → ParsedFeed} {now : Nat}
    {cache : Cache} {feeds : List String}
    (h : cacheLookup cache (cache_key feeds now) = none) :
    load_articles_from env now cache feeds =
      (List.insertionSort sort_time_ge
        (dedupe_by_link (fetch_items env feeds) []),
       (cache_key feeds now,
        { ts := now,
          items := List.insertionSort sort_time_ge
            (dedupe_by_link (fetch_items env feeds) []) }) :: cache) := by
  rw [load_articles_from]
  rw [h]

theorem py_sorted_perm_eq {l₁ l₂ : List String} (h : l₁.Perm l₂) :
    py_sorted l₁ = py_sorted l₂ := by
  have hs₁ := List.sorted_insertionSort (fun a b : String => a ≤ b) l₁
  have hs₂ := List.sorted_insertionSort (fun a b : String => a ≤ b) l₂
  have hperm : (py_sorted l₁).Perm (py_sorted l₂) :=
    (List.perm_insertionSort _ l₁).trans
      (h.trans (List.perm_insertionSort _ l₂).symm)
  exact List.eq_of_perm_of_sorted hperm hs₁ hs₂

theorem cache_key_perm {feeds feeds2 : List String} {now now2 : Nat}
    (hp : feeds2.Perm feeds)
    (hb : now2 / TTL_SECONDS = now / TTL_SECONDS) :
    cache_key feeds2 now2 = cache_key feeds now := by
  unfold cache_key
  rw [py_sorted_perm_eq hp, hb]

theorem cacheLookup_cons_self (k : CacheKey) (e : CacheEntry) (c : Cache) :
    cacheLookup ((k, e) :: c) k = some e := by
  simp [cacheLookup, List.find?_cons_of_pos]

theorem cacheLookup_cons_ne {k k2 : CacheKey} (e : CacheEntry) (c : Cache)
    (h : k2 ≠ k) : cacheLookup ((k, e) :: c) k2 = cacheLookup c k2 := by
  simp only [cacheLookup, List.find?]
  rw [decide_eq_false (by simpa using h.symm)]

/-! ### Concrete inputs used by witnesses and counterexamples -/

/-- A concrete raw entry: full title, link and published timestamp. -/
def wEntryA : FeedEntry :=
  { title := some ("Alpha"), link := some ("http://a"),
    summary := some ("alpha summary"), published_parsed := some 100 }

/-- A concrete raw entry with only an updated timestamp. -/
def wEntryB : FeedEntry :=
  { title := some ("Beta"), link := some ("http://b"),
    updated_parsed := some 200 }

/-- A concrete raw entry duplicating the link of `wEntryA`. -/
def wEntryDupA : FeedEntry :=
  { title := some ("Alpha again"), link := some ("http://a"),
    published_parsed := some 300 }

/-- A concrete raw entry whose title strips to the empty string. -/
def wEntryNoTitle : FeedEntry :=
  { title := some ("   "), link := some ("http://c") }

/-- A concrete fetch environment answering every url with one feed that
contains a duplicate link and an empty-after-strip title. -/
def wEnv : String → ParsedFeed :=
  fun _ => { title := some ("Src"),
             entries := [wEntryA, wEntryB, wEntryDupA, wEntryNoTitle] }

/-- A concrete raw entry with neither a published-parsed nor an
updated-parsed timestamp. -/
def cexEntryNoTime : FeedEntry :=
  { title := some ("NoTime"), link := some ("http://n") }

/-- A concrete raw entry whose parseable published timestamp is exactly
the Unix epoch. -/
def cexEntryEpoch : FeedEntry :=
  { title := some ("Epoch"), link := some ("http://e"),
    published_parsed := some 0 }

/-- A concrete fetch environment whose feed lists the no-timestamp entry
before an entry timestamped exactly at the Unix epoch. -/
def cexEnvEpoch : String → ParsedFeed :=
  fun _ => { title := some ("S"),
             entries := [cexEntryNoTime, cexEntryEpoch] }

/-! ### Claims -/

/-- C1: on a call that actually fetches (cache miss, in particular the
first call of a process), the article list returned by
`load_articles_from` contains no two articles with the same link, each of
its articles is exactly the first article carrying its link in the fetched
sequence (first-seen-wins), every distinct non-empty link of the fetched
sequence is represented, and every returned article has a non-empty title
and a non-empty link. -/
theorem C1_dedup_first_seen (env : String → ParsedFeed) (now : Nat)
    (cache : Cache) (feeds : List String)
    (hmiss : cacheLookup cache (cache_key feeds now) = none) :
    ((load_articles_from env now cache feeds).1.Pairwise
        (fun a b => a.link ≠ b.link))
    ∧ (∀ a ∈ (load_articles_from env now cache feeds).1,
        a.title ≠ ("") ∧ a.link ≠ (""))
    ∧ (∀ a ∈ (load_articles_from env now cache feeds).1,
        (fetch_items env feeds).find? (fun b => b.link == a.link) = some a)
    ∧ (∀ b ∈ fetch_items env feeds, b.link ≠ ("") →
        ∃ a, a ∈ (load_articles_from env now cache feeds).1
          ∧ a.link = b.link) := by
  rw [load_articles_from_miss hmiss]
  refine ⟨?_, ?_, ?_, ?_⟩
  · exact ((List.perm_insertionSort _ _).pairwise_iff
      (fun h => Ne.symm h)).mpr (dedupe_by_link_nodup _ _)
  · intro a ha
    have hd : a ∈ dedupe_by_link (fetch_items env feeds) [] :=
      (List.mem_insertionSort _).mp ha
    have hm := mem_dedupe_by_link hd
    exact ⟨(mem_fetch_items hm.1).1, hm.2.1⟩
  · intro a ha
    exact dedupe_by_link_find ((List.mem_insertionSort _).mp ha)
  · intro b hb hne
    obtain ⟨a, ha, hal⟩ :=
      dedupe_by_link_complete hb hne (List.not_mem_nil _)
    exact ⟨a, (List.mem_insertionSort _).mpr ha, hal⟩

/-- Witness for C1 at a concrete fetch environment, a single feed url and
the empty cache. -/
theorem C1_witness :
    cacheLookup ([] : Cache) (cache_key [("u")] 0) = none
    ∧ ((load_articles_from wEnv 0 [] [("u")]).1.Pairwise
        (fun a b => a.link ≠ b.link)) :=
  ⟨by decide, (C1_dedup_first_seen wEnv 0 [] [("u")] (by decide)).1⟩

/-- C2 counterexample: the claim says an article with neither timestamp
field sorts after EVERY article with a parseable timestamp, but a
parseable timestamp can itself equal the Unix epoch; the two articles then
tie on `sort_time` and the stable sort keeps the no-timestamp article
first.  Concretely, the feed lists the no-timestamp entry before an entry
whose published timestamp is exactly the epoch, and the returned list
keeps that order, so the no-timestamp article does not sort after the
parseable one. -/
theorem C2_counterexample :
    cexEntryNoTime.published_parsed = none
    ∧ cexEntryNoTime.updated_parsed = none
    ∧ cexEntryEpoch.published_parsed = some 0
    ∧ (load_articles_from cexEnvEpoch 0 [] [("u")]).1
        = [normalize_entry ("S") cexEntryNoTime,
           normalize_entry ("S") cexEntryEpoch]
    ∧ normalize_entry ("S") cexEntryNoTime
        ≠ normalize_entry ("S") cexEntryEpoch := by
  decide

/-- C2 (amended): on a call that actually fetches, the returned list is
sorted by `sort_time` in descending order (so an article never appears
before another with a strictly later `sort_time`); an entry with neither a
published-parsed nor an updated-parsed timestamp gets the Unix epoch as
its `sort_time` and therefore sorts after every entry whose parseable
timestamp is strictly later than the epoch; and articles with equal
`sort_time` keep their relative order from before the sort (stability,
stated per `sort_time` value against the deduplicated pre-sort list). -/
theorem C2_sorted_amended (env : String → ParsedFeed) (now : Nat)
    (cache : Cache) (feeds : List String)
    (hmiss : cacheLookup cache (cache_key feeds now) = none) :
    ((load_articles_from env now cache feeds).1.Pairwise sort_time_ge)
    ∧ (∀ e : FeedEntry, e.published_parsed = none →
        e.updated_parsed = none → entry_time e = 0)
    ∧ (∀ t : Int,
        (load_articles_from env now cache feeds).1.filter
          (fun a => a.sort_time == t)
        = (dedupe_by_link (fetch_items env feeds) []).filter
            (fun a => a.sort_time == t)) := by
  rw [load_articles_from_miss hmiss]
  refine ⟨?_, ?_, ?_⟩
  · exact List.sorted_insertionSort sort_time_ge _
  · intro e h1 h2
    simp [entry_time, h1, h2]
  · intro t
    refine filter_insertionSort _ ?_ _
    intro a hpa b hab
    have h1 : a.sort_time = t := by simpa using hpa
    have h2 : a.sort_time < b.sort_time := not_le.mp hab
    have h3 : b.sort_time ≠ t := by omega
    simpa using h3

/-- Witness for the amended C2 at a concrete fetch environment, a single
feed url and the empty cache. -/
theorem C2_witness :
    cacheLookup ([] : Cache) (cache_key [("w")] 0) = none
    ∧ ((load_articles_from wEnv 0 [] [("w")]).1.Pairwise sort_time_ge) :=
  ⟨by decide, (C2_sorted_amended wEnv 0 [] [("w")] (by decide)).1⟩

theorem cacheLookup_eq_none_of_bucket {c : Cache} {k : CacheKey}
    (h : ∀ p ∈ c, p.1.2 ≠ k.2) : cacheLookup c k = none := by
  unfold cacheLookup
  rw [List.find?_eq_none.mpr ?_]
  · rfl
  · intro p hp
    simp only [decide_eq_true_eq]
    intro he
    exact h p hp (by rw [he])

/-- C3: a second call in the same 300-second bucket whose feed list is any
permutation of the first ones returns the identical stored item list and
leaves the cache unchanged, whatever its fetch environment is (so no
second fetch is performed); a call in the next bucket, starting from a
cache whose buckets are not in the future, misses the cache and re-runs
the fetch, normalize, dedup and sort pipeline. -/
theorem C3_cache_bucket (env : String → ParsedFeed) (now : Nat)
    (cache : Cache) (feeds : List String) :
    (∀ (env2 : String → ParsedFeed) (now2 : Nat) (feeds2 : List String),
        feeds2.Perm feeds → now2 / TTL_SECONDS = now / TTL_SECONDS →
        load_articles_from env2 now2
            (load_articles_from env now cache feeds).2 feeds2
          = ((load_articles_from env now cache feeds).1,
             (load_articles_from env now cache feeds).2))
    ∧ (∀ (env2 : String → ParsedFeed) (now2 : Nat) (feeds2 : List String),
        feeds2.Perm feeds → now2 / TTL_SECONDS = now / TTL_SECONDS + 1 →
        (∀ p ∈ cache, p.1.2 ≤ now / TTL_SECONDS) →
        (load_articles_from env2 now2
            (load_articles_from env now cache feeds).2 feeds2).1
          = List.insertionSort sort_time_ge
              (dedupe_by_link (fetch_items env2 feeds2) [])) := by
  constructor
  · intro env2 now2 feeds2 hp hb
    have hkey : cache_key feeds2 now2 = cache_key feeds now :=
      cache_key_perm hp hb
    cases hc : cacheLookup cache (cache_key feeds now) with
    | some e =>
      rw [load_articles_from_hit hc]
      exact load_articles_from_hit (by rw [hkey]; exact hc)
    | none =>
      rw [load_articles_from_miss hc]
      have hlk : cacheLookup
          ((cache_key feeds now,
            { ts := now,
              items := List.insertionSort sort_time_ge
                (dedupe_by_link (fetch_items env feeds) []) }) :: cache)
          (cache_key feeds2 now2)
          = some { ts := now,
                   items := List.insertionSort sort_time_ge
                     (dedupe_by_link (fetch_items env feeds) []) } := by
        rw [hkey]
        exact cacheLookup_cons_self _ _ _
      exact load_articles_from_hit hlk
  · intro env2 now2 feeds2 hp hb hold
    have hn : cacheLookup (load_articles_from env now cache feeds).2
        (cache_key feeds2 now2) = none := by
      cases hc : cacheLookup cache (cache_key feeds now) with
      | some e =>
        rw [load_articles_from_hit hc]
        refine cacheLookup_eq_none_of_bucket ?_
        intro p hp2
        have h1 := hold p hp2
        show p.1.2 ≠ now2 / TTL_SECONDS
        omega
      | none =>
        rw [load_articles_from_miss hc]
        refine cacheLookup_eq_none_of_bucket ?_
        intro p hp2
        rcases List.mem_cons.mp hp2 with rfl | hp2
        · show now / TTL_SECONDS ≠ now2 / TTL_SECONDS
          omega
        · have h1 := hold p hp2
          show p.1.2 ≠ now2 / TTL_SECONDS
          omega
    rw [load_articles_from_miss hn]

/-- Witness for C3: the second call within the bucket reuses the stored
list even under a completely different fetch environment. -/
theorem C3_witness :
    (([("u")] : List String).Perm [("u")]
      ∧ (100 : Nat) / TTL_SECONDS = 0 / TTL_SECONDS)
    ∧ load_articles_from cexEnvEpoch 100
        (load_articles_from wEnv 0 [] [("u")]).2 [("u")]
      = ((load_articles_from wEnv 0 [] [("u")]).1,
         (load_articles_from wEnv 0 [] [("u")]).2) :=
  ⟨⟨List.Perm.refl _, by decide⟩,
   (C3_cache_bucket wEnv 0 [] [("u")]).1 cexEnvEpoch 100 [("u")]
     (List.Perm.refl _) (by decide)⟩

/-- C4: `paginate` returns (in order) the item slice of the clamped page,
the page clamped into the interval from 1 to `total_pages`,
`total_pages = max 1 (ceil of total divided by page size)`, and the item
count; an in-range requested page is not changed, out-of-range pages are
clamped rather than failing; and on 23 items with page size 10 a request
for page 5 yields page 3 holding the last 3 items (items 21 to 23). -/
theorem C4_paginate (items : List Article) (page : Int) (per_page : Nat)
    (_hpos : 0 < per_page) :
    (paginate items page per_page).2.2.2 = items.length
    ∧ (paginate items page per_page).2.2.1
        = max 1 ((items.length + per_page - 1) / per_page)
    ∧ 1 ≤ (paginate items page per_page).2.1
    ∧ (paginate items page per_page).2.1
        ≤ (paginate items page per_page).2.2.1
    ∧ (1 ≤ page → page ≤ ((paginate items page per_page).2.2.1 : Int) →
        ((paginate items page per_page).2.1 : Int) = page)
    ∧ (paginate items page per_page).1
        = (items.drop
            (((paginate items page per_page).2.1 - 1) * per_page)).take
            per_page
    ∧ (∀ its : List Article, its.length = 23 →
        paginate its 5 10 = (its.drop 20, 3, 3, 23)
        ∧ (its.drop 20).length = 3) := by
  refine ⟨rfl, rfl, ?_, ?_, ?_, rfl, ?_⟩
  · simp only [paginate]
    omega
  · simp only [paginate]
    omega
  · simp only [paginate]
    omega
  · intro its h23
    constructor
    · have htake : (its.drop 20).take 10 = its.drop 20 :=
        List.take_of_length_le (by simp [h23])
      simp only [paginate, h23]
      norm_num
      exact ⟨htake, rfl⟩
    · simp [h23]

/-- Witness for C4 at a concrete page size, item list and out-of-range
page number. -/
theorem C4_witness :
    (0 : Nat) < 10
    ∧ 1 ≤ (paginate [] 7 10).2.1 :=
  ⟨by decide, (C4_paginate [] 7 10 (by decide)).2.2.1⟩

/-- A concrete raw entry whose title matches the query of the spec
example. -/
def wFloodEntry : FeedEntry :=
  { title := some ("Flood warning issued"), link := some ("http://f"),
    summary := some ("heavy rain expected") }

/-- The article normalized from `wFloodEntry`. -/
def wFloodArticle : Article := normalize_entry ("S") wFloodEntry

theorem py_lower_eq_empty_iff {s : String} :
    py_lower s = ("") ↔ s = ("") := by
  unfold py_lower
  constructor
  · intro h
    have hdata : s.toList.map Char.toLower = [] := congrArg String.data h
    have : s.toList = [] := List.map_eq_nil_iff.mp hdata
    cases s
    simp_all [String.toList]
  · intro h
    rw [h]
    rfl

/-- C5 counterexample: with a query that is empty after trimming, the
filter as applied by the /search route (`app.py` lines 187-188) returns
the empty list rather than the full unchanged list, because the list
comprehension requires the lowercased query to be truthy; the per-tab
filter really does return the list unchanged, so the claim fails for the
/search application. -/
theorem C5_counterexample :
    search_results_filter ("") [wFloodArticle] = []
    ∧ ([wFloodArticle] : List Article) ≠ []
    ∧ tab_query_filter ("") [wFloodArticle] = [wFloodArticle] := by
  decide

/-- C5 (amended): when the query is empty after trimming, the per-tab
filter returns the full unchanged list while the /search route filter
returns the empty list; when the query is non-empty after trimming, both
filters return exactly the articles whose lowercased title or lowercased
summary contains the lowercased query as a substring. -/
theorem C5_query_filter_amended (q_raw : String) (items : List Article) :
    (py_strip q_raw = ("") →
        tab_query_filter (py_strip q_raw) items = items
        ∧ search_results_filter (py_strip q_raw) items = [])
    ∧ (py_strip q_raw ≠ ("") →
        tab_query_filter (py_strip q_raw) items
          = search_results_filter (py_strip q_raw) items
        ∧ (∀ a, a ∈ tab_query_filter (py_strip q_raw) items ↔
            (a ∈ items ∧
              ((py_lower (py_strip q_raw)).toList
                  <:+: (py_lower a.title).toList
               ∨ (py_lower (py_strip q_raw)).toList
                  <:+: (py_lower a.summary).toList)))) := by
  constructor
  · intro hq
    rw [hq]
    constructor
    · rfl
    · have h0 : py_lower ("") = ("") := rfl
      simp [search_results_filter, h0]
  · intro hq
    have hql : py_lower (py_strip q_raw) ≠ ("") := by
      intro h
      exact hq (py_lower_eq_empty_iff.mp h)
    constructor
    · rw [tab_query_filter, if_pos hq, search_results_filter]
      refine (List.filter_congr ?_).symm
      intro a _
      simp [hql]
    · intro a
      rw [tab_query_filter, if_pos hq]
      simp [List.mem_filter, query_matches, py_contains]

/-- Witness for the amended C5 at the empty query and a one-article
list. -/
theorem C5_witness :
    py_strip ("") = ("")
    ∧ (tab_query_filter (py_strip ("")) [wFloodArticle] = [wFloodArticle]
       ∧ search_results_filter (py_strip ("")) [wFloodArticle] = []) :=
  ⟨by decide, (C5_query_filter_amended ("") [wFloodArticle]).1 (by decide)⟩

/-- C6: an empty-after-trim question redirects to the assistant form
whatever the remote call would return (no API call is made); with a
missing or empty credential the handler returns the fixed not-configured
notice, again independently of the remote call; and a remote call that
raises is converted into an inline error page (the handler is a total
function, so the exception never propagates). -/
theorem C6_assistant_flow (q api : Option String)
    (remote remote2 : Except String (Option String)) :
    (py_strip (pyStrOr q ("")) = ("") →
        assistant_ask q api remote = AskResult.redirect_to_form
        ∧ assistant_ask q api remote = assistant_ask q api remote2)
    ∧ (py_strip (pyStrOr q ("")) ≠ ("") → optTruthy api = false →
        assistant_ask q api remote
          = AskResult.answer_page not_configured_answer
        ∧ assistant_ask q api remote = assistant_ask q api remote2)
    ∧ (∀ e, py_strip (pyStrOr q ("")) ≠ ("") → optTruthy api = true →
        assistant_ask q api (Except.error e)
          = AskResult.answer_page (failed_fetch_answer ++ markup_escape e))
    := by
  refine ⟨?_, ?_, ?_⟩
  · intro hq
    constructor <;> simp [assistant_ask, hq]
  · intro hq hapi
    constructor <;> simp [assistant_ask, hq, hapi]
  · intro e hq hapi
    simp [assistant_ask, hq, hapi]

/-- Witness for C6 at a whitespace question: the handler redirects and the
result is the same for a successful and for a failing remote call. -/
theorem C6_witness :
    py_strip (pyStrOr (some ("  ")) ("")) = ("")
    ∧ (assistant_ask (some ("  ")) (some ("key")) (Except.ok (some ("x")))
        = AskResult.redirect_to_form
      ∧ assistant_ask (some ("  ")) (some ("key")) (Except.ok (some ("x")))
        = assistant_ask (some ("  ")) (some ("key"))
            (Except.error ("boom"))) :=
  ⟨by decide,
   (C6_assistant_flow (some ("  ")) (some ("key")) (Except.ok (some ("x")))
      (Except.error ("boom"))).1 (by decide)⟩

/-- C7: divergence at a concrete failing input.  For a model reply with a
newline, the code renders the escaped reply with the newline replaced by
the ESCAPED line-break tag (markupsafe Markup.replace escapes its string
arguments), so the user sees the literal tag text instead of a line
break; the rendering the claim and the spec describe is shown alongside
and differs.  The exception path does match the claim: the fixed failure
prefix followed by the escaped exception text. -/
theorem C7_escape_divergence :
    assistant_ask (some ("hi")) (some ("k")) (Except.ok (some ("a\nb")))
      = AskResult.answer_page ("a&lt;br&gt;b")
    ∧ spec_answer_render ("a\nb") = ("a<br>b")
    ∧ ("a&lt;br&gt;b") ≠ ("a<br>b")
    ∧ assistant_ask (some ("hi")) (some ("k"))
        (Except.error ("<script>"))
      = AskResult.answer_page (failed_fetch_answer ++ ("&lt;script&gt;"))
    := by
  decide

theorem cacheLookup_none_iff {c : Cache} {k : CacheKey} :
    cacheLookup c k = none ↔ ∀ p ∈ c, p.1 ≠ k := by
  unfold cacheLookup
  rw [Option.map_eq_none']
  rw [List.find?_eq_none]
  simp

/-- C8: a call to `load_articles_from` preserves the invariant that the
cache has at most one entry per key, never removes or overwrites an
existing entry (every previous binding is still found, unchanged), and
the key set only grows. -/
theorem C8_cache_monotone (env : String → ParsedFeed) (now : Nat)
    (cache : Cache) (feeds : List String) :
    ((cache.map Prod.fst).Nodup →
        (((load_articles_from env now cache feeds).2).map Prod.fst).Nodup)
    ∧ (∀ k e, cacheLookup cache k = some e →
        cacheLookup (load_articles_from env now cache feeds).2 k = some e)
    ∧ (∀ k, k ∈ cache.map Prod.fst →
        k ∈ ((load_articles_from env now cache feeds).2).map Prod.fst) := by
  cases hc : cacheLookup cache (cache_key feeds now) with
  | some e =>
    rw [load_articles_from_hit hc]
    exact ⟨id, fun _ _ h => h, fun _ h => h⟩
  | none =>
    rw [load_articles_from_miss hc]
    refine ⟨?_, ?_, ?_⟩
    · intro hnd
      rw [List.map_cons]
      refine List.nodup_cons.mpr ⟨?_, hnd⟩
      intro hmem
      obtain ⟨p, hp, hpk⟩ := List.mem_map.mp hmem
      exact (cacheLookup_none_iff.mp hc) p hp hpk
    · intro k e h
      have hne : k ≠ cache_key feeds now := by
        intro he
        rw [he, hc] at h
        cases h
      rw [cacheLookup_cons_ne _ _ hne]
      exact h
    · intro k hk
      rw [List.map_cons]
      exact List.mem_cons_of_mem _ hk

/-- Witness for C8: a pre-existing binding under an old bucket is still
found unchanged after a call in a newer bucket. -/
theorem C8_witness :
    cacheLookup [((("u"), 0), { ts := 0, items := [] })]
        ((("u"), 0)) = some { ts := 0, items := [] }
    ∧ cacheLookup
        (load_articles_from wEnv 400 [((("u"), 0), { ts := 0, items := [] })]
          [("u")]).2 ((("u"), 0))
      = some { ts := 0, items := [] } :=
  ⟨by decide,
   (C8_cache_monotone wEnv 400 [((("u"), 0), { ts := 0, items := [] })]
      [("u")]).2.1 (("u"), 0) { ts := 0, items := [] } (by decide)⟩

/-- C9: the /search response is rendered with page 1 and total_pages 1,
its article count equals the length of its article list (nothing is cut
off by pagination), the handler ignores any page parameter of the
request, and the article list holds exactly the loaded articles whose
lowercased title or summary contains the non-empty lowercased query. -/
theorem C9_search_unpaginated (env : String → ParsedFeed) (now : Nat)
    (cache : Cache) (q tab : Option String) (p1 : Option Int) :
    (search_route env now cache q tab p1).1.page = 1
    ∧ (search_route env now cache q tab p1).1.total_pages = 1
    ∧ (search_route env now cache q tab p1).1.total_articles
        = (search_route env now cache q tab p1).1.articles.length
    ∧ (∀ p2, search_route env now cache q tab p2
        = search_route env now cache q tab p1)
    ∧ (∀ a, a ∈ (search_route env now cache q tab p1).1.articles ↔
        (a ∈ (load_articles_from env now cache
                (feed_groups_get (tab.getD ("dashboard")))).1
         ∧ py_lower (py_strip (pyStrOr q (""))) ≠ ("")
         ∧ ((py_lower (py_strip (pyStrOr q ("")))).toList
              <:+: (py_lower a.title).toList
            ∨ (py_lower (py_strip (pyStrOr q ("")))).toList
              <:+: (py_lower a.summary).toList))) := by
  refine ⟨rfl, rfl, rfl, fun p2 => rfl, ?_⟩
  intro a
  show a ∈ search_results_filter (py_strip (pyStrOr q ("")))
      (load_articles_from env now cache
        (feed_groups_get (tab.getD ("dashboard")))).1 ↔ _
  rw [search_results_filter]
  simp [List.mem_filter, query_matches, py_contains, and_assoc]

/-- C10: a tab name that is not a key of FEED_GROUPS falls back to the
dashboard feed group in both the per-tab renderer and the /search route:
the same articles are served as for the dashboard tab. -/
theorem C10_unknown_tab (env : String → ParsedFeed) (now : Nat)
    (cache : Cache) (tab : String) (pp : Option Int) (qp : Option String)
    (h : FEED_GROUPS.find? (fun p => p.1 == tab) = none) :
    feed_groups_get tab = dashboard_feeds
    ∧ (render_feed_page env now cache tab pp qp).1.articles
        = (render_feed_page env now cache ("dashboard") pp qp).1.articles
    ∧ (render_feed_page env now cache tab pp qp).1.total_articles
        = (render_feed_page env now cache ("dashboard") pp qp).1.total_articles
    ∧ (search_route env now cache qp (some tab) pp).1.articles
        = (search_route env now cache qp (some ("dashboard")) pp).1.articles
    := by
  have hget : feed_groups_get tab = dashboard_feeds := by
    unfold feed_groups_get
    rw [h]
    rfl
  have hdash : feed_groups_get ("dashboard") = dashboard_feeds := by decide
  refine ⟨hget, ?_, ?_, ?_⟩
  · simp only [render_feed_page, hget, hdash]
  · simp only [render_feed_page, hget, hdash]
  · simp only [search_route, Option.getD, hget, hdash]

/-- Witness for C10 at the concrete unknown tab name `sports`. -/
theorem C10_witness :
    FEED_GROUPS.find? (fun p => p.1 == ("sports")) = none
    ∧ feed_groups_get ("sports") = dashboard_feeds :=
  ⟨by decide,
   (C10_unknown_tab wEnv 0 [] ("sports") none none (by decide)).1⟩

end Redata
